import Mathlib

/-
  Verification of the tlock age-recipient layer (tlock_age.go).

  The development shallowly embeds the Go code: byte slices become
  List Nat, Go errors become an inductive type that models the
  errors.Is chain walk, and the external cryptographic collaborators
  (IBE encrypt/decrypt, BLS beacon verification, kyber point
  marshalling, the Network interface) become explicit oracle
  parameters, since they live outside this repository.
-/

namespace Tlock

/-- Model of Go error values as they matter to errors.Is: a plain
error created by errors.New, a wrapping error created by fmt.Errorf
with a percent-w verb, and the two sentinel errors the code compares
against (ErrTooEarly from the tlock package and ErrIncorrectIdentity
from the age package). -/
inductive GoError where
  | new (msg : String)
  | wrap (ctx : String) (inner : GoError)
  | errTooEarly
  | errIncorrectIdentity
deriving BEq, DecidableEq, Repr

deriving instance DecidableEq for Except

/-- Model of errors.Is: the target is compared against every error in
the chain obtained by repeated unwrapping. -/
def errorsIs (e target : GoError) : Bool :=
  e == target ||
    match e with
    | .wrap _ inner => errorsIs inner target
    | _ => false

/-! ### SHA-256, executable (crypto/sha256 as used by calculateEncryptionID) -/

/-- Truncation to an unsigned 32-bit word. -/
def u32 (x : Nat) : Nat := x % 4294967296

/-- Right rotation of a 32-bit word. -/
def rotr (n x : Nat) : Nat := u32 ((x >>> n) ||| (x <<< (32 - n)))

def sigBig0 (x : Nat) : Nat := (rotr 2 x) ^^^ (rotr 13 x) ^^^ (rotr 22 x)

def sigBig1 (x : Nat) : Nat := (rotr 6 x) ^^^ (rotr 11 x) ^^^ (rotr 25 x)

def sigSmall0 (x : Nat) : Nat := (rotr 7 x) ^^^ (rotr 18 x) ^^^ (x >>> 3)

def sigSmall1 (x : Nat) : Nat := (rotr 17 x) ^^^ (rotr 19 x) ^^^ (x >>> 10)

def chFn (x y z : Nat) : Nat := (x &&& y) ^^^ ((x ^^^ 4294967295) &&& z)

def majFn (x y z : Nat) : Nat := (x &&& y) ^^^ (x &&& z) ^^^ (y &&& z)

/-- The 64 SHA-256 round constants, written in decimal. -/
def K64 : List Nat :=
  [1116352408, 1899447441, 3049323471, 3921009573, 961987163, 1508970993,
   2453635748, 2870763221, 3624381080, 310598401, 607225278, 1426881987,
   1925078388, 2162078206, 2614888103, 3248222580, 3835390401, 4022224774,
   264347078, 604807628, 770255983, 1249150122, 1555081692, 1996064986,
   2554220882, 2821834349, 2952996808, 3210313671, 3336571891, 3584528711,
   113926993, 338241895, 666307205, 773529912, 1294757372, 1396182291,
   1695183700, 1986661051, 2177026350, 2456956037, 2730485921, 2820302411,
   3259730800, 3345764771, 3516065817, 3600352804, 4094571909, 275423344,
   430227734, 506948616, 659060556, 883997877, 958139571, 1322822218,
   1537002063, 1747873779, 1955562222, 2024104815, 2227730452, 2361852424,
   2428436474, 2756734187, 3204031479, 3329325298]

/-- Big-endian serialization of a 64-bit value into 8 bytes, the
behaviour of binary.BigEndian.PutUint64 and hence the drand library
function chain.RoundToBytes applied to a round number. -/
def u64be (x : Nat) : List Nat :=
  [(x >>> 56) % 256, (x >>> 48) % 256, (x >>> 40) % 256, (x >>> 32) % 256,
   (x >>> 24) % 256, (x >>> 16) % 256, (x >>> 8) % 256, x % 256]

/-- Big-endian serialization of a 32-bit word into 4 bytes. -/
def w32be (x : Nat) : List Nat :=
  [(x >>> 24) % 256, (x >>> 16) % 256, (x >>> 8) % 256, x % 256]

/-- SHA-256 padding: append the byte 0x80, then zero bytes up to 56
mod 64, then the bit length as a 64-bit big-endian value. -/
def shaPad (msg : List Nat) : List Nat :=
  msg ++ [128] ++ List.replicate ((64 - ((msg.length + 9) % 64)) % 64) 0 ++ u64be (8 * msg.length)

/-- Split a byte list into blocks of 64 bytes; the fuel argument is
only a structural bound on the number of blocks and is always called
with the length of the list. -/
def blocks64Go : Nat → List Nat → List (List Nat)
  | _, [] => []
  | 0, _ :: _ => []
  | fuel + 1, b :: rest => ((b :: rest).take 64) :: blocks64Go fuel ((b :: rest).drop 64)

/-- Split a byte list into blocks of 64 bytes. -/
def blocks64 (l : List Nat) : List (List Nat) := blocks64Go l.length l

/-- Read the sixteen 32-bit big-endian words of a 64-byte block. -/
def toWords (block : List Nat) : List Nat :=
  (List.range 16).map fun i =>
    ((block.getD (4 * i) 0) <<< 24) ||| ((block.getD (4 * i + 1) 0) <<< 16) |||
      ((block.getD (4 * i + 2) 0) <<< 8) ||| (block.getD (4 * i + 3) 0)

/-- Extend the 16-word schedule to 64 words. -/
def extendSchedule (w : List Nat) : List Nat :=
  (List.range 48).foldl
    (fun ws i =>
      ws ++ [u32 (sigSmall1 (ws.getD (i + 14) 0) + ws.getD (i + 9) 0 +
                  sigSmall0 (ws.getD (i + 1) 0) + ws.getD i 0)])
    w

/-- The eight 32-bit words of the SHA-256 working state. -/
structure Hstate where
  a : Nat
  b : Nat
  c : Nat
  d : Nat
  e : Nat
  f : Nat
  g : Nat
  h : Nat
deriving Repr, DecidableEq

/-- One SHA-256 round applied to the working state, given a round
constant paired with a schedule word. -/
def roundStep (st : Hstate) (kw : Nat × Nat) : Hstate :=
  let t1 := u32 (st.h + sigBig1 st.e + chFn st.e st.f st.g + kw.1 + kw.2)
  let t2 := u32 (sigBig0 st.a + majFn st.a st.b st.c)
  ⟨u32 (t1 + t2), st.a, st.b, st.c, u32 (st.d + t1), st.e, st.f, st.g⟩

/-- Compress one 64-byte block into the chaining state. -/
def compressBlock (st : Hstate) (block : List Nat) : Hstate :=
  let w := extendSchedule (toWords block)
  let fin := (K64.zip w).foldl roundStep st
  ⟨u32 (st.a + fin.a), u32 (st.b + fin.b), u32 (st.c + fin.c), u32 (st.d + fin.d),
   u32 (st.e + fin.e), u32 (st.f + fin.f), u32 (st.g + fin.g), u32 (st.h + fin.h)⟩

/-- The SHA-256 initial state, written in decimal. -/
def initHstate : Hstate :=
  ⟨1779033703, 3144134277, 1013904242, 2773480762,
   1359893119, 2600822924, 528734635, 1541459225⟩

/-- Serialize the final state into the 32-byte digest. -/
def digestOf (st : Hstate) : List Nat :=
  w32be st.a ++ w32be st.b ++ w32be st.c ++ w32be st.d ++
    w32be st.e ++ w32be st.f ++ w32be st.g ++ w32be st.h

/-- Full SHA-256 over a byte list. -/
def sha256 (msg : List Nat) : List Nat :=
  digestOf ((blocks64 (shaPad msg)).foldl compressBlock initHstate)

theorem digestOf_length (st : Hstate) : (digestOf st).length = 32 := by
  simp [digestOf, w32be]

theorem sha256_length (msg : List Nat) : (sha256 msg).length = 32 :=
  digestOf_length _

/-- Sanity anchor: the FIPS 180-4 test vector for the empty message. -/
theorem sha256_empty_vector :
    sha256 [] =
      [227, 176, 196, 66, 152, 252, 28, 20, 154, 251, 244, 200,
       153, 111, 185, 36, 39, 174, 65, 228, 100, 155, 147, 76,
       164, 149, 153, 27, 120, 82, 184, 85] := by
  decide

/-- Sanity anchor: the FIPS 180-4 test vector for the three-byte
message abc. -/
theorem sha256_abc_vector :
    sha256 [97, 98, 99] =
      [186, 120, 22, 191, 143, 1, 207, 234, 65, 65, 64, 222,
       93, 174, 34, 35, 176, 3, 97, 163, 150, 23, 122, 156,
       180, 16, 255, 97, 242, 0, 21, 173] := by
  decide

/-! ### Data model of tlock_age.go -/

/-- These constants define the size of the different CipherDEK
fields, tlock_age.go lines 17 to 21. -/
def kyberPointLen : Nat := 48

def cipherVLen : Nat := 16

def cipherWLen : Nat := 16

/-- cipherDEK represents the encrypted data encryption key needed to
decrypt the cipher data; byte slices are Lists of byte values. -/
structure CipherDEK where
  kyberPoint : List Nat
  cipherV : List Nat
  cipherW : List Nat
deriving DecidableEq, Repr

/-- An age stanza: a type tag, string arguments, and a binary body. -/
structure Stanza where
  stzType : String
  args : List String
  body : List Nat
deriving DecidableEq, Repr

/-- The Network interface as the code uses it: the chain hash, the
public key (kept as its opaque byte representation), and
IsReadyToDecrypt returning a signature byte slice and a readiness
flag. -/
structure Network where
  chainHash : String
  publicKey : List Nat
  isReadyToDecrypt : Nat → List Nat × Bool

/-- Ciphertext returned by ibe.Encrypt: the U point (kept as an
opaque handle identified with its byte representation) plus the V
and W byte strings. -/
structure IBECiphertext where
  U : List Nat
  V : List Nat
  W : List Nat
deriving DecidableEq, Repr

/-- External collaborators of Wrap: ibe.Encrypt over the BLS12-381
suite and kyber point MarshalBinary, both fallible. -/
structure WrapOracle where
  ibeEncrypt : List Nat → List Nat → List Nat → Except GoError IBECiphertext
  marshalG1 : List Nat → Except GoError (List Nat)

/-- External collaborators of decryptDEK: the beacon verifier (chain
NewVerifier VerifyBeacon, returning none on success), the two kyber
point unmarshallers (points identified with their bytes, so success
carries no data), and ibe.Decrypt taking the signature and the
ciphertext triple. -/
structure UnwrapOracle where
  verifyBeacon : Nat → List Nat → List Nat → Option GoError
  unmarshalG2 : List Nat → Option GoError
  unmarshalG1 : List Nat → Option GoError
  ibeDecrypt : List Nat → List Nat → List Nat → List Nat → Except GoError (List Nat)

/-! ### The embedded functions of tlock_age.go -/

/-- Go hash.Hash contract for the sha256 writer: Write never returns
an error, so the error branch in calculateEncryptionID is dead. -/
def sha256WriteErr (_ : List Nat) : Option GoError := none

/-- calculateEncryptionID generates the id required for encryption:
sha256 over chain.RoundToBytes of the round number, with the Go
error check on the hash write kept in place. -/
def calculateEncryptionID (roundNumber : Nat) : Except GoError (List Nat) :=
  match sha256WriteErr (u64be roundNumber) with
  | some err => .error (.wrap "sha256 write" err)
  | none => .ok (sha256 (u64be roundNumber))

/-- Go copy semantics into a whole destination slice: the first
min of the two lengths elements of dst are replaced by those of src;
the length of dst is preserved. -/
def goCopy (dst src : List Nat) : List Nat :=
  src.take dst.length ++ dst.drop src.length

/-- Go copy into the suffix of dst starting at off, the effect of
copy applied to a slice expression dst from off onward. -/
def goCopyAt (dst : List Nat) (off : Nat) (src : List Nat) : List Nat :=
  dst.take off ++ goCopy (dst.drop off) src

/-- The body construction inside Wrap, tlock_age.go lines 59 to 62:
a zeroed buffer of 80 bytes receives the marshalled point at offset
0, V at offset kyberPointLen, and W at offset kyberPointLen plus
cipherVLen, each with Go copy semantics. -/
def serializeBody (kyberPoint v w : List Nat) : List Nat :=
  goCopyAt (goCopyAt (goCopy (List.replicate (kyberPointLen + cipherVLen + cipherWLen) 0) kyberPoint)
      kyberPointLen v)
    (kyberPointLen + cipherVLen) w

/-- Wrap encrypts the DEK with time lock encryption and returns the
single tlock stanza, tlock_age.go lines 43 to 71. -/
def Wrap (o : WrapOracle) (network : Network) (round : Nat) (fileKey : List Nat) :
    Except GoError (List Stanza) :=
  match calculateEncryptionID round with
  | .error err => .error (.wrap "round by number" err)
  | .ok id =>
    match o.ibeEncrypt network.publicKey id fileKey with
    | .error err => .error (.wrap "encrypt dek" err)
    | .ok cipherText =>
      match o.marshalG1 cipherText.U with
      | .error err => .error (.wrap "marshal kyber point" err)
      | .ok kyberPoint =>
        .ok [⟨"tlock", [Nat.repr round, network.chainHash],
              serializeBody kyberPoint cipherText.V cipherText.W⟩]

/-- strconv.ParseUint with base 10 and bit size 64: digits only,
nonempty, value below 2 to the 64. -/
def parseUint64 (s : String) : Except GoError Nat :=
  if s.length = 0 then
    .error (.new ("strconv.ParseUint: parsing " ++ s ++ ": invalid syntax"))
  else if s.toList.all (fun c => c.isDigit) then
    let n := s.toList.foldl (fun acc c => acc * 10 + (c.toNat - 48)) 0
    if n < 2 ^ 64 then .ok n
    else .error (.new ("strconv.ParseUint: parsing " ++ s ++ ": value out of range"))
  else
    .error (.new ("strconv.ParseUint: parsing " ++ s ++ ": invalid syntax"))

/-- parseCipherDEK parses the stanza body constructed in the Wrap
method back to the original cipherDEK, tlock_age.go lines 133 to
155. -/
def parseCipherDEK (stanzaBody : List Nat) : Except GoError CipherDEK :=
  if stanzaBody.length ≠ kyberPointLen + cipherVLen + cipherWLen then
    .error (.new ("incorrect length: exp: " ++ Nat.repr (kyberPointLen + cipherVLen + cipherWLen) ++
      " got: " ++ Nat.repr stanzaBody.length))
  else
    .ok ⟨stanzaBody.take kyberPointLen,
         (stanzaBody.drop kyberPointLen).take cipherVLen,
         ((stanzaBody.drop kyberPointLen).drop cipherVLen).take cipherVLen⟩

/-- decryptDEK attempts to decrypt an encrypted DEK against the
provided network for the specified round, tlock_age.go lines 159 to
199. -/
def decryptDEK (o : UnwrapOracle) (cd : CipherDEK) (network : Network) (roundNumber : Nat) :
    Except GoError (List Nat) :=
  match network.isReadyToDecrypt roundNumber with
  | (id, ready) =>
    if !ready then .error .errTooEarly
    else
      match o.verifyBeacon roundNumber id network.publicKey with
      | some err => .error (.wrap "verify beacon" err)
      | none =>
        match o.unmarshalG2 id with
        | some err => .error (.wrap "unmarshal kyber G2" err)
        | none =>
          match o.unmarshalG1 cd.kyberPoint with
          | some err => .error (.wrap "unmarshal kyber G1" err)
          | none =>
            match o.ibeDecrypt id cd.kyberPoint cd.cipherV cd.cipherW with
            | .error err => .error (.wrap "decrypt dek" err)
            | .ok fileKey => .ok fileKey

/-- Unwrap decrypts the DEK that was time lock encrypted by the Wrap
function via the stanza, tlock_age.go lines 94 to 129. -/
def Unwrap (o : UnwrapOracle) (network : Network) (stanzas : List Stanza) :
    Except GoError (List Nat) :=
  match stanzas with
  | [stanza] =>
    if stanza.stzType ≠ "tlock" then
      .error (.wrap "check stanza type: wrong type" .errIncorrectIdentity)
    else
      match stanza.args with
      | [arg0, arg1] =>
        match parseUint64 arg0 with
        | .error err => .error (.wrap "parse block round" err)
        | .ok blockRound =>
          if network.chainHash ≠ arg1 then .error (.new "wrong chainhash")
          else
            match parseCipherDEK stanza.body with
            | .error err => .error (.wrap "parse cipher dek" err)
            | .ok cipherDEK =>
              match decryptDEK o cipherDEK network blockRound with
              | .error err => .error (.wrap "decrypt dek" err)
              | .ok fileKey => .ok fileKey
      | _ => .error (.wrap "check stanza args: should be two" .errIncorrectIdentity)
  | _ => .error (.new "check stanzas length: should be one")

/-! ### Instrumented execution trace of the unwrap path

The traced definitions mirror Unwrap and decryptDEK line for line and
additionally record which stage of the unwrap state machine each
execution reached; a stage label is appended exactly when the code of
that stage runs. -/

/-- The stages of the unwrap path in source order. -/
inductive Step where
  | checkStanzas
  | checkType
  | checkArgs
  | parseRound
  | checkChain
  | parseBody
  | queryNetwork
  | verifyBeacon
  | unmarshalG2
  | unmarshalG1
  | ibeDecrypt
deriving DecidableEq, Repr

/-- The stages of decryptDEK in source order. -/
def dekSteps : List Step :=
  [.queryNetwork, .verifyBeacon, .unmarshalG2, .unmarshalG1, .ibeDecrypt]

/-- All stages of the unwrap path in source order. -/
def fullSteps : List Step :=
  [.checkStanzas, .checkType, .checkArgs, .parseRound, .checkChain, .parseBody] ++ dekSteps

/-- decryptDEK with its execution trace. -/
def decryptDEKTrace (o : UnwrapOracle) (cd : CipherDEK) (network : Network) (roundNumber : Nat) :
    List Step × Except GoError (List Nat) :=
  match network.isReadyToDecrypt roundNumber with
  | (id, ready) =>
    if !ready then ([.queryNetwork], .error .errTooEarly)
    else
      match o.verifyBeacon roundNumber id network.publicKey with
      | some err => ([.queryNetwork, .verifyBeacon], .error (.wrap "verify beacon" err))
      | none =>
        match o.unmarshalG2 id with
        | some err =>
          ([.queryNetwork, .verifyBeacon, .unmarshalG2], .error (.wrap "unmarshal kyber G2" err))
        | none =>
          match o.unmarshalG1 cd.kyberPoint with
          | some err =>
            ([.queryNetwork, .verifyBeacon, .unmarshalG2, .unmarshalG1],
             .error (.wrap "unmarshal kyber G1" err))
          | none =>
            match o.ibeDecrypt id cd.kyberPoint cd.cipherV cd.cipherW with
            | .error err => (dekSteps, .error (.wrap "decrypt dek" err))
            | .ok fileKey => (dekSteps, .ok fileKey)

/-- Unwrap with its execution trace. -/
def unwrapTrace (o : UnwrapOracle) (network : Network) (stanzas : List Stanza) :
    List Step × Except GoError (List Nat) :=
  match stanzas with
  | [stanza] =>
    if stanza.stzType ≠ "tlock" then
      ([.checkStanzas, .checkType],
       .error (.wrap "check stanza type: wrong type" .errIncorrectIdentity))
    else
      match stanza.args with
      | [arg0, arg1] =>
        match parseUint64 arg0 with
        | .error err =>
          ([.checkStanzas, .checkType, .checkArgs, .parseRound],
           .error (.wrap "parse block round" err))
        | .ok blockRound =>
          if network.chainHash ≠ arg1 then
            ([.checkStanzas, .checkType, .checkArgs, .parseRound, .checkChain],
             .error (.new "wrong chainhash"))
          else
            match parseCipherDEK stanza.body with
            | .error err =>
              ([.checkStanzas, .checkType, .checkArgs, .parseRound, .checkChain, .parseBody],
               .error (.wrap "parse cipher dek" err))
            | .ok cipherDEK =>
              match decryptDEKTrace o cipherDEK network blockRound with
              | (tr, .error err) =>
                ([.checkStanzas, .checkType, .checkArgs, .parseRound, .checkChain, .parseBody] ++ tr,
                 .error (.wrap "decrypt dek" err))
              | (tr, .ok fileKey) =>
                ([.checkStanzas, .checkType, .checkArgs, .parseRound, .checkChain, .parseBody] ++ tr,
                 .ok fileKey)
      | _ =>
        ([.checkStanzas, .checkType, .checkArgs],
         .error (.wrap "check stanza args: should be two" .errIncorrectIdentity))
  | _ => ([.checkStanzas], .error (.new "check stanzas length: should be one"))

/-! ### Concrete fixtures used by witnesses and counterexamples -/

/-- A network that is never ready to decrypt. -/
def testNet : Network :=
  { chainHash := "aa", publicKey := List.replicate 48 1,
    isReadyToDecrypt := fun _ => ([], false) }

/-- A network that is always ready to decrypt. -/
def readyNet : Network :=
  { chainHash := "aa", publicKey := List.replicate 48 1,
    isReadyToDecrypt := fun _ => (List.replicate 96 2, true) }

/-- An unwrap oracle whose verification and decryption always
succeed. -/
def okOracle : UnwrapOracle :=
  { verifyBeacon := fun _ _ _ => none,
    unmarshalG2 := fun _ => none,
    unmarshalG1 := fun _ => none,
    ibeDecrypt := fun _ _ _ _ => .ok (List.replicate 16 3) }

/-- A wrap oracle whose IBE encryption and point marshalling succeed
with fields of the expected lengths. -/
def okWrapOracle : WrapOracle :=
  { ibeEncrypt := fun _ _ _ => .ok ⟨List.replicate 48 4, List.replicate 16 5, List.replicate 16 6⟩,
    marshalG1 := fun u => .ok u }

/-- A wrap oracle whose point marshalling returns only 47 bytes. -/
def shortWrapOracle : WrapOracle :=
  { ibeEncrypt := fun _ _ _ => .ok ⟨List.replicate 48 4, List.replicate 16 5, List.replicate 16 6⟩,
    marshalG1 := fun _ => .ok (List.replicate 47 9) }

/-! ### Helper lemmas -/

theorem goCopy_length (dst src : List Nat) : (goCopy dst src).length = dst.length := by
  simp [goCopy]
  omega

theorem goCopyAt_length (dst : List Nat) (off : Nat) (src : List Nat) :
    (goCopyAt dst off src).length = dst.length := by
  simp [goCopyAt, goCopy]
  omega

theorem serializeBody_length (kp v w : List Nat) : (serializeBody kp v w).length = 80 := by
  simp [serializeBody, goCopyAt_length, goCopy_length, kyberPointLen, cipherVLen, cipherWLen]

theorem serializeBody_exact (kp v w : List Nat)
    (hk : kp.length = 48) (hv : v.length = 16) (hw : w.length = 16) :
    serializeBody kp v w = kp ++ v ++ w := by
  have h1 : goCopy (List.replicate 80 0) kp = kp ++ List.replicate 32 0 := by
    simp [goCopy, hk, List.take_of_length_le, List.drop_replicate]
  have h2 : goCopyAt (kp ++ List.replicate 32 0) 48 v = kp ++ v ++ List.replicate 16 0 := by
    simp [goCopyAt, goCopy, List.take_left' hk, List.drop_left' hk, hv,
      List.take_of_length_le, List.drop_replicate]
  have h3 : goCopyAt (kp ++ v ++ List.replicate 16 0) 64 w = kp ++ v ++ w := by
    have hkv : (kp ++ v).length = 64 := by simp [hk, hv]
    simp only [goCopyAt, goCopy]
    rw [List.take_left' hkv, List.drop_left' hkv]
    simp [hw, List.take_of_length_le, List.drop_replicate]
  show goCopyAt (goCopyAt (goCopy (List.replicate 80 0) kp) 48 v) 64 w = kp ++ v ++ w
  rw [h1, h2, h3]

theorem parseCipherDEK_isOk (b : List Nat) :
    (parseCipherDEK b).isOk = true ↔ b.length = 80 := by
  by_cases h : b.length = 80
  · simp [parseCipherDEK, kyberPointLen, cipherVLen, cipherWLen, h, Except.isOk, Except.toBool]
  · simp [parseCipherDEK, kyberPointLen, cipherVLen, cipherWLen, h, Except.isOk, Except.toBool]

theorem parseCipherDEK_append (U V W : List Nat)
    (hU : U.length = 48) (hV : V.length = 16) (hW : W.length = 16) :
    parseCipherDEK (U ++ V ++ W) = .ok ⟨U, V, W⟩ := by
  have hlen : (U ++ V ++ W).length = 80 := by simp [hU, hV, hW]
  have hd : (U ++ (V ++ W)).drop 48 = V ++ W := List.drop_left' hU
  simp only [parseCipherDEK, kyberPointLen, cipherVLen, cipherWLen, hlen]
  rw [if_neg (by omega)]
  rw [List.append_assoc, List.take_left' hU, hd]
  rw [List.take_left' hV, List.drop_left' hV, List.take_of_length_le (le_of_eq hW)]

theorem parseCipherDEK_of_length (b : List Nat) (h : b.length = 80) :
    parseCipherDEK b = .ok ⟨b.take 48, (b.drop 48).take 16, ((b.drop 48).drop 16).take 16⟩ := by
  simp only [parseCipherDEK, kyberPointLen, cipherVLen, cipherWLen, h]
  rw [if_neg (by omega)]

theorem decryptDEK_not_ready (o : UnwrapOracle) (cd : CipherDEK) (n : Network) (r : Nat)
    (h : (n.isReadyToDecrypt r).2 = false) :
    decryptDEK o cd n r = .error .errTooEarly := by
  rcases hp : n.isReadyToDecrypt r with ⟨id, ready⟩
  rw [hp] at h
  simp at h
  simp [decryptDEK, hp, h]

theorem decryptDEK_verify_fail (o : UnwrapOracle) (cd : CipherDEK) (n : Network) (r : Nat)
    (e : GoError)
    (hready : (n.isReadyToDecrypt r).2 = true)
    (hv : o.verifyBeacon r (n.isReadyToDecrypt r).1 n.publicKey = some e) :
    decryptDEK o cd n r = .error (.wrap "verify beacon" e) := by
  rcases hp : n.isReadyToDecrypt r with ⟨id, ready⟩
  rw [hp] at hready hv
  simp at hready hv
  simp [decryptDEK, hp, hready, hv]

theorem decryptDEKTrace_res (o : UnwrapOracle) (cd : CipherDEK) (n : Network) (r : Nat) :
    (decryptDEKTrace o cd n r).2 = decryptDEK o cd n r := by
  rcases hp : n.isReadyToDecrypt r with ⟨id, ready⟩
  cases ready
  · simp [decryptDEKTrace, decryptDEK, hp]
  · cases hv : o.verifyBeacon r id n.publicKey
    · cases h2 : o.unmarshalG2 id
      · cases h1 : o.unmarshalG1 cd.kyberPoint
        · cases hd : o.ibeDecrypt id cd.kyberPoint cd.cipherV cd.cipherW <;>
            simp [decryptDEKTrace, decryptDEK, hp, hv, h2, h1, hd]
        · simp [decryptDEKTrace, decryptDEK, hp, hv, h2, h1]
      · simp [decryptDEKTrace, decryptDEK, hp, hv, h2]
    · simp [decryptDEKTrace, decryptDEK, hp, hv]

theorem decryptDEKTrace_take (o : UnwrapOracle) (cd : CipherDEK) (n : Network) (r : Nat) :
    ∃ j, (decryptDEKTrace o cd n r).1 = dekSteps.take j := by
  rcases hp : n.isReadyToDecrypt r with ⟨id, ready⟩
  cases ready
  · exact ⟨1, by simp [decryptDEKTrace, hp, dekSteps]⟩
  · cases hv : o.verifyBeacon r id n.publicKey
    · cases h2 : o.unmarshalG2 id
      · cases h1 : o.unmarshalG1 cd.kyberPoint
        · cases hd : o.ibeDecrypt id cd.kyberPoint cd.cipherV cd.cipherW
          · exact ⟨5, by simp [decryptDEKTrace, hp, hv, h2, h1, hd, dekSteps]⟩
          · exact ⟨5, by simp [decryptDEKTrace, hp, hv, h2, h1, hd, dekSteps]⟩
        · exact ⟨4, by simp [decryptDEKTrace, hp, hv, h2, h1, dekSteps]⟩
      · exact ⟨3, by simp [decryptDEKTrace, hp, hv, h2, dekSteps]⟩
    · exact ⟨2, by simp [decryptDEKTrace, hp, hv, dekSteps]⟩

theorem decryptDEKTrace_decrypt_mem (o : UnwrapOracle) (cd : CipherDEK) (n : Network) (r : Nat)
    (h : Step.ibeDecrypt ∈ (decryptDEKTrace o cd n r).1) :
    (n.isReadyToDecrypt r).2 = true ∧
      o.verifyBeacon r (n.isReadyToDecrypt r).1 n.publicKey = none := by
  rcases hp : n.isReadyToDecrypt r with ⟨id, ready⟩
  cases ready
  · simp [decryptDEKTrace, hp] at h
  · cases hv : o.verifyBeacon r id n.publicKey
    · simp [hp, hv]
    · simp [decryptDEKTrace, hp, hv] at h

theorem fullSteps_take (j : Nat) :
    fullSteps.take (6 + j) =
      [Step.checkStanzas, .checkType, .checkArgs, .parseRound, .checkChain, .parseBody] ++
        dekSteps.take j :=
  @List.take_append Step
    [Step.checkStanzas, .checkType, .checkArgs, .parseRound, .checkChain, .parseBody] dekSteps j

theorem unwrapTrace_res (o : UnwrapOracle) (n : Network) (ss : List Stanza) :
    (unwrapTrace o n ss).2 = Unwrap o n ss := by
  match ss with
  | [] => rfl
  | _ :: _ :: _ => rfl
  | [st] =>
    rcases st with ⟨ty, args, body⟩
    by_cases hty : ty = "tlock"
    · rcases args with _ | ⟨a0, _ | ⟨a1, _ | ⟨a2, tl⟩⟩⟩
      · simp [unwrapTrace, Unwrap, hty]
      · simp [unwrapTrace, Unwrap, hty]
      · cases hr : parseUint64 a0 with
        | error e => simp [unwrapTrace, Unwrap, hty, hr]
        | ok blockRound =>
          by_cases hc : n.chainHash = a1
          · cases hb : parseCipherDEK body with
            | error e => simp [unwrapTrace, Unwrap, hty, hr, hc, hb]
            | ok cd =>
              have hres := decryptDEKTrace_res o cd n blockRound
              rcases hd : decryptDEKTrace o cd n blockRound with ⟨tr, res⟩
              rw [hd] at hres
              cases res <;>
                simp [unwrapTrace, Unwrap, hty, hr, hc, hb, hd, ← hres]
          · simp [unwrapTrace, Unwrap, hty, hr, hc]
      · simp [unwrapTrace, Unwrap, hty]
    · simp [unwrapTrace, Unwrap, hty]

theorem unwrapTrace_take (o : UnwrapOracle) (n : Network) (ss : List Stanza) :
    ∃ k, (unwrapTrace o n ss).1 = fullSteps.take k := by
  match ss with
  | [] => exact ⟨1, rfl⟩
  | _ :: _ :: _ => exact ⟨1, rfl⟩
  | [st] =>
    rcases st with ⟨ty, args, body⟩
    by_cases hty : ty = "tlock"
    · rcases args with _ | ⟨a0, _ | ⟨a1, _ | ⟨a2, tl⟩⟩⟩
      · exact ⟨3, by simp [unwrapTrace, hty, fullSteps, dekSteps]⟩
      · exact ⟨3, by simp [unwrapTrace, hty, fullSteps, dekSteps]⟩
      · cases hr : parseUint64 a0 with
        | error e => exact ⟨4, by simp [unwrapTrace, hty, hr, fullSteps, dekSteps]⟩
        | ok blockRound =>
          by_cases hc : n.chainHash = a1
          · cases hb : parseCipherDEK body with
            | error e => exact ⟨6, by simp [unwrapTrace, hty, hr, hc, hb, fullSteps, dekSteps]⟩
            | ok cd =>
              obtain ⟨j, hj⟩ := decryptDEKTrace_take o cd n blockRound
              rcases hd : decryptDEKTrace o cd n blockRound with ⟨tr, res⟩
              rw [hd] at hj
              replace hj : tr = dekSteps.take j := hj
              refine ⟨6 + j, ?_⟩
              rw [fullSteps_take j]
              cases res <;> simp [unwrapTrace, hty, hr, hc, hb, hd, hj]
          · exact ⟨5, by simp [unwrapTrace, hty, hr, hc, fullSteps, dekSteps]⟩
      · exact ⟨3, by simp [unwrapTrace, hty, fullSteps, dekSteps]⟩
    · exact ⟨2, by simp [unwrapTrace, hty, fullSteps, dekSteps]⟩

theorem unwrapTrace_decrypt_mem (o : UnwrapOracle) (n : Network) (ss : List Stanza)
    (h : Step.ibeDecrypt ∈ (unwrapTrace o n ss).1) :
    ∃ r, (n.isReadyToDecrypt r).2 = true ∧
      o.verifyBeacon r (n.isReadyToDecrypt r).1 n.publicKey = none := by
  match ss with
  | [] => simp [unwrapTrace] at h
  | _ :: _ :: _ => simp [unwrapTrace] at h
  | [st] =>
    rcases st with ⟨ty, args, body⟩
    by_cases hty : ty = "tlock"
    · rcases args with _ | ⟨a0, _ | ⟨a1, _ | ⟨a2, tl⟩⟩⟩
      · simp [unwrapTrace, hty] at h
      · simp [unwrapTrace, hty] at h
      · cases hr : parseUint64 a0 with
        | error e => simp [unwrapTrace, hty, hr] at h
        | ok blockRound =>
          by_cases hc : n.chainHash = a1
          · cases hb : parseCipherDEK body with
            | error e => simp [unwrapTrace, hty, hr, hc, hb] at h
            | ok cd =>
              rcases hd : decryptDEKTrace o cd n blockRound with ⟨tr, res⟩
              have hmem : Step.ibeDecrypt ∈ tr := by
                cases res <;> simpa [unwrapTrace, hty, hr, hc, hb, hd] using h
              have := decryptDEKTrace_decrypt_mem o cd n blockRound (by rw [hd]; exact hmem)
              exact ⟨blockRound, this⟩
          · simp [unwrapTrace, hty, hr, hc] at h
      · simp [unwrapTrace, hty] at h
    · simp [unwrapTrace, hty] at h

/-- A well-formed tlock stanza for the fixture networks. -/
def goodStanza : Stanza := ⟨"tlock", ["1", "aa"], List.replicate 80 0⟩

/-- A tlock stanza whose body is one byte short. -/
def badBodyStanza : Stanza := ⟨"tlock", ["1", "aa"], List.replicate 79 0⟩

/-- A tlock stanza with a single argument. -/
def oneArgStanza : Stanza := ⟨"tlock", ["1"], List.replicate 80 0⟩

/-- A parsed cipher DEK fixture. -/
def someCd : CipherDEK := ⟨List.replicate 48 0, List.replicate 16 0, List.replicate 16 0⟩

/-- An unwrap oracle whose beacon verification always fails. -/
def failVerifyOracle : UnwrapOracle :=
  { okOracle with verifyBeacon := fun _ _ _ => some (.new "invalid signature") }

/-! ### Claims -/

/-- C1 counterexample: a stanza whose type, args count, round parse
and chain hash checks all pass, presented to a network that is not
ready, can still fail with an error that does not match ErrTooEarly:
when the body has 79 bytes, Unwrap fails at body parsing, which the
code runs before querying the network. -/
theorem c1_too_early_counterexample :
    badBodyStanza.stzType = "tlock" ∧ badBodyStanza.args.length = 2 ∧
    parseUint64 "1" = .ok 1 ∧ testNet.chainHash = "aa" ∧
    (testNet.isReadyToDecrypt 1).2 = false ∧
    Unwrap okOracle testNet [badBodyStanza] =
      .error (.wrap "parse cipher dek" (.new "incorrect length: exp: 80 got: 79")) ∧
    errorsIs (.wrap "parse cipher dek" (.new "incorrect length: exp: 80 got: 79"))
      .errTooEarly = false := by
  refine ⟨rfl, rfl, by decide, rfl, rfl, ?_, by decide⟩
  decide

/-- C1 amended: for every stanza whose type, args count, round
parse, chain hash and body length checks pass, if the network
reports the round as not ready then Unwrap fails with an error that
matches ErrTooEarly under the errors.Is chain walk, and the result
does not depend on the beacon verifier or the IBE decrypter, both of
which are quantified arbitrarily. -/
theorem c1_too_early_amended (o : UnwrapOracle) (n : Network) (st : Stanza)
    (a0 a1 : String) (r : Nat)
    (hty : st.stzType = "tlock") (hargs : st.args = [a0, a1])
    (hr : parseUint64 a0 = .ok r) (hc : n.chainHash = a1)
    (hbody : st.body.length = 80)
    (hready : (n.isReadyToDecrypt r).2 = false) :
    Unwrap o n [st] = .error (.wrap "decrypt dek" .errTooEarly) ∧
    errorsIs (.wrap "decrypt dek" .errTooEarly) .errTooEarly = true := by
  refine ⟨?_, by decide⟩
  have hpb := parseCipherDEK_of_length st.body hbody
  have hnr : ∀ cd, decryptDEK o cd n r = .error .errTooEarly := fun cd =>
    decryptDEK_not_ready o cd n r hready
  simp [Unwrap, hty, hargs, hr, hc, hpb, hnr]

/-- C1 witness: the amended theorem applied to a concrete stanza and
a network that is never ready. -/
theorem c1_too_early_witness :
    Unwrap okOracle testNet [goodStanza] = .error (.wrap "decrypt dek" .errTooEarly) ∧
    errorsIs (.wrap "decrypt dek" .errTooEarly) .errTooEarly = true :=
  c1_too_early_amended okOracle testNet goodStanza "1" "aa" 1 rfl rfl (by decide) rfl
    (by decide) rfl

/-- C2: whenever Wrap succeeds it returns exactly one stanza, whose
type is the literal tlock, whose args are the round in decimal ASCII
followed by the configured chain hash of the network, and whose body
has exactly 80 bytes. -/
theorem c2_wrap_stanza_shape (o : WrapOracle) (n : Network) (round : Nat) (fk : List Nat)
    (out : List Stanza) (h : Wrap o n round fk = .ok out) :
    ∃ st, out = [st] ∧ st.stzType = "tlock" ∧
      st.args = [Nat.repr round, n.chainHash] ∧ st.args.length = 2 ∧ st.body.length = 80 := by
  unfold Wrap at h
  simp only [calculateEncryptionID, sha256WriteErr] at h
  cases hE : o.ibeEncrypt n.publicKey (sha256 (u64be round)) fk with
  | error e => simp [hE] at h
  | ok ct =>
    simp only [hE] at h
    cases hM : o.marshalG1 ct.U with
    | error e => simp [hM] at h
    | ok kp =>
      simp only [hM] at h
      injection h with h
      exact ⟨⟨"tlock", [Nat.repr round, n.chainHash], serializeBody kp ct.V ct.W⟩,
        h.symm, rfl, rfl, rfl, serializeBody_length kp ct.V ct.W⟩

/-- C2 witness: the theorem applied to a concrete oracle whose IBE
encryption and marshalling succeed. -/
theorem c2_wrap_stanza_shape_witness :
    ∃ st,
      [(⟨"tlock", [Nat.repr 7, testNet.chainHash],
        serializeBody (List.replicate 48 4) (List.replicate 16 5) (List.replicate 16 6)⟩ :
          Stanza)] = [st] ∧
      st.stzType = "tlock" ∧ st.args = [Nat.repr 7, testNet.chainHash] ∧
      st.args.length = 2 ∧ st.body.length = 80 :=
  c2_wrap_stanza_shape okWrapOracle testNet 7 (List.replicate 16 0) _ rfl

/-- C3: the unwrap path is the claimed state machine. Every
execution trace is a prefix of the full stage order CheckStanzas,
CheckType, CheckArgs, ParseRound, CheckChain, ParseBody,
QueryNetwork, VerifyBeacon, UnmarshalG2, UnmarshalG1, IBEDecrypt, so
any stage failure is terminal; the traced run computes exactly
Unwrap; IBE decryption is reached only on executions where the
network was ready and beacon verification returned no error; and a
verification failure terminates decryptDEK with the verify beacon
error for every cipher DEK. -/
theorem c3_verify_precedes_decrypt (o : UnwrapOracle) (n : Network) (ss : List Stanza) :
    (∃ k, (unwrapTrace o n ss).1 = fullSteps.take k) ∧
    (unwrapTrace o n ss).2 = Unwrap o n ss ∧
    (Step.ibeDecrypt ∈ (unwrapTrace o n ss).1 →
      ∃ r, (n.isReadyToDecrypt r).2 = true ∧
        o.verifyBeacon r (n.isReadyToDecrypt r).1 n.publicKey = none) ∧
    (∀ cd r e, (n.isReadyToDecrypt r).2 = true →
      o.verifyBeacon r (n.isReadyToDecrypt r).1 n.publicKey = some e →
      decryptDEK o cd n r = .error (.wrap "verify beacon" e)) :=
  ⟨unwrapTrace_take o n ss, unwrapTrace_res o n ss, unwrapTrace_decrypt_mem o n ss,
   fun cd r e hready hv => decryptDEK_verify_fail o cd n r e hready hv⟩

/-- C3 witness: on a concrete full run the decrypt stage is reached
with verification passed, and on a concrete failing verifier the
operation terminates with the verify beacon error. -/
theorem c3_verify_precedes_decrypt_witness :
    (∃ r, (readyNet.isReadyToDecrypt r).2 = true ∧
      okOracle.verifyBeacon r (readyNet.isReadyToDecrypt r).1 readyNet.publicKey = none) ∧
    decryptDEK failVerifyOracle someCd readyNet 1 =
      .error (.wrap "verify beacon" (.new "invalid signature")) :=
  ⟨(c3_verify_precedes_decrypt okOracle readyNet [goodStanza]).2.2.1 (by decide),
   (c3_verify_precedes_decrypt failVerifyOracle readyNet []).2.2.2 someCd 1
     (.new "invalid signature") rfl rfl⟩

/-- C4: a single tlock stanza with two args and a parseable round
whose second arg differs from the configured chain hash makes Unwrap
fail with the wrong chainhash error, for every oracle, every body
and every network readiness, so neither the body parse nor the
network query influences the outcome. -/
theorem c4_wrong_chainhash (o : UnwrapOracle) (n : Network) (st : Stanza)
    (a0 a1 : String) (r : Nat)
    (hty : st.stzType = "tlock") (hargs : st.args = [a0, a1])
    (hr : parseUint64 a0 = .ok r) (hne : n.chainHash ≠ a1) :
    Unwrap o n [st] = .error (.new "wrong chainhash") := by
  simp [Unwrap, hty, hargs, hr, hne]

/-- C4 witness: a stanza for chain bb presented to the network with
chain aa that is ready and has a well-formed body. -/
theorem c4_wrong_chainhash_witness :
    Unwrap okOracle readyNet [⟨"tlock", ["1", "bb"], List.replicate 80 0⟩] =
      .error (.new "wrong chainhash") :=
  c4_wrong_chainhash okOracle readyNet ⟨"tlock", ["1", "bb"], List.replicate 80 0⟩ "1" "bb" 1
    rfl rfl (by decide) (by decide)

/-- C5: calculateEncryptionID is deterministic, being a function,
and returns exactly the SHA-256 digest of the 8-byte big-endian
encoding of the round number, a digest of fixed length 32. -/
theorem c5_encryption_id_sha256 (r : Nat) :
    calculateEncryptionID r = .ok (sha256 (u64be r)) ∧
    (u64be r).length = 8 ∧ (sha256 (u64be r)).length = 32 :=
  ⟨rfl, by simp [u64be], sha256_length _⟩

/-- C6: parseCipherDEK succeeds exactly on 80-byte inputs, and on a
concatenation of a 48-byte U, a 16-byte V and a 16-byte W it
recovers exactly the triple, without validating the point bytes; the
body Wrap serializes from such fields is exactly that concatenation,
so the round-trip is the identity. -/
theorem c6_parse_cipher_dek_roundtrip :
    (∀ b : List Nat, (parseCipherDEK b).isOk = true ↔ b.length = 80) ∧
    (∀ U V W : List Nat, U.length = 48 → V.length = 16 → W.length = 16 →
      parseCipherDEK (U ++ V ++ W) = .ok ⟨U, V, W⟩ ∧
      serializeBody U V W = U ++ V ++ W ∧
      parseCipherDEK (serializeBody U V W) = .ok ⟨U, V, W⟩) :=
  ⟨parseCipherDEK_isOk, fun U V W hU hV hW =>
    ⟨parseCipherDEK_append U V W hU hV hW, serializeBody_exact U V W hU hV hW,
     by rw [serializeBody_exact U V W hU hV hW]; exact parseCipherDEK_append U V W hU hV hW⟩⟩

/-- C6 witness: the round-trip at concrete 48, 16 and 16 byte
fields. -/
theorem c6_parse_cipher_dek_roundtrip_witness :
    parseCipherDEK (List.replicate 48 7 ++ List.replicate 16 8 ++ List.replicate 16 9) =
      .ok ⟨List.replicate 48 7, List.replicate 16 8, List.replicate 16 9⟩ ∧
    serializeBody (List.replicate 48 7) (List.replicate 16 8) (List.replicate 16 9) =
      List.replicate 48 7 ++ List.replicate 16 8 ++ List.replicate 16 9 ∧
    parseCipherDEK
        (serializeBody (List.replicate 48 7) (List.replicate 16 8) (List.replicate 16 9)) =
      .ok ⟨List.replicate 48 7, List.replicate 16 8, List.replicate 16 9⟩ :=
  c6_parse_cipher_dek_roundtrip.2 (List.replicate 48 7) (List.replicate 16 8)
    (List.replicate 16 9) (by decide) (by decide) (by decide)

/-- C7 counterexample: when the marshalled point has 47 bytes
instead of 48, Wrap does not surface any error: it succeeds,
silently zero-padding the missing byte through Go copy semantics. -/
theorem c7_wrap_length_counterexample :
    shortWrapOracle.marshalG1 (List.replicate 48 4) = .ok (List.replicate 47 9) ∧
    (List.replicate 47 9).length ≠ 48 ∧
    (Wrap shortWrapOracle testNet 1 (List.replicate 16 0)).isOk = true :=
  ⟨rfl, by decide, rfl⟩

/-- C7 amended: Wrap performs no length validation on the marshalled
fields; it copies them with Go copy semantics into a fixed zeroed
80-byte buffer, truncating overlength and zero-padding underlength
fields without surfacing any error, so the body always has exactly
80 bytes, and equals the exact concatenation of the three fields
precisely when their lengths are 48, 16 and 16. -/
theorem c7_wrap_length_amended (o : WrapOracle) (n : Network) (round : Nat) (fk : List Nat)
    (ct : IBECiphertext) (kp : List Nat)
    (hE : o.ibeEncrypt n.publicKey (sha256 (u64be round)) fk = .ok ct)
    (hM : o.marshalG1 ct.U = .ok kp) :
    Wrap o n round fk =
      .ok [⟨"tlock", [Nat.repr round, n.chainHash], serializeBody kp ct.V ct.W⟩] ∧
    (serializeBody kp ct.V ct.W).length = 80 ∧
    (kp.length = 48 → ct.V.length = 16 → ct.W.length = 16 →
      serializeBody kp ct.V ct.W = kp ++ ct.V ++ ct.W) := by
  refine ⟨?_, serializeBody_length kp ct.V ct.W,
    fun hk hv hw => serializeBody_exact kp ct.V ct.W hk hv hw⟩
  unfold Wrap
  simp only [calculateEncryptionID, sha256WriteErr, hE, hM]

/-- C7 witness: the amended theorem at a concrete oracle with fields
of the expected lengths. -/
theorem c7_wrap_length_witness :
    Wrap okWrapOracle testNet 7 (List.replicate 16 0) =
      .ok [⟨"tlock", [Nat.repr 7, testNet.chainHash],
        serializeBody (List.replicate 48 4) (List.replicate 16 5) (List.replicate 16 6)⟩] ∧
    (serializeBody (List.replicate 48 4) (List.replicate 16 5) (List.replicate 16 6)).length =
      80 ∧
    ((List.replicate 48 4).length = 48 → (List.replicate 16 5).length = 16 →
      (List.replicate 16 6).length = 16 →
      serializeBody (List.replicate 48 4) (List.replicate 16 5) (List.replicate 16 6) =
        List.replicate 48 4 ++ List.replicate 16 5 ++ List.replicate 16 6) :=
  c7_wrap_length_amended okWrapOracle testNet 7 (List.replicate 16 0)
    ⟨List.replicate 48 4, List.replicate 16 5, List.replicate 16 6⟩ (List.replicate 48 4)
    rfl rfl

/-- C8 counterexample: a tlock stanza with one argument makes Unwrap
fail with an error that DOES match age.ErrIncorrectIdentity under
errors.Is, because the code wraps that sentinel into the args count
error, contradicting the claim that the sentinel is reserved for
stanzas of the wrong type. -/
theorem c8_args_count_counterexample :
    oneArgStanza.stzType = "tlock" ∧ oneArgStanza.args.length ≠ 2 ∧
    Unwrap okOracle testNet [oneArgStanza] =
      .error (.wrap "check stanza args: should be two" .errIncorrectIdentity) ∧
    errorsIs (.wrap "check stanza args: should be two" .errIncorrectIdentity)
      .errIncorrectIdentity = true := by
  refine ⟨rfl, by decide, ?_, by decide⟩
  decide

/-- C8 amended: a single tlock stanza whose args count is not two
makes Unwrap fail with the args count error, which wraps
age.ErrIncorrectIdentity and therefore matches it under errors.Is,
the same class as the wrong type error. -/
theorem c8_args_count_amended (o : UnwrapOracle) (n : Network) (st : Stanza)
    (hty : st.stzType = "tlock") (hargs : st.args.length ≠ 2) :
    Unwrap o n [st] =
      .error (.wrap "check stanza args: should be two" .errIncorrectIdentity) ∧
    errorsIs (.wrap "check stanza args: should be two" .errIncorrectIdentity)
      .errIncorrectIdentity = true := by
  refine ⟨?_, by decide⟩
  rcases harg : st.args with _ | ⟨a0, _ | ⟨a1, _ | ⟨a2, tl⟩⟩⟩
  · simp [Unwrap, hty, harg]
  · simp [Unwrap, hty, harg]
  · rw [harg] at hargs; simp at hargs
  · simp [Unwrap, hty, harg]

/-- C8 witness: the amended theorem at a concrete stanza with three
arguments. -/
theorem c8_args_count_witness :
    Unwrap okOracle testNet [⟨"tlock", ["1", "aa", "x"], List.replicate 80 0⟩] =
      .error (.wrap "check stanza args: should be two" .errIncorrectIdentity) ∧
    errorsIs (.wrap "check stanza args: should be two" .errIncorrectIdentity)
      .errIncorrectIdentity = true :=
  c8_args_count_amended okOracle testNet ⟨"tlock", ["1", "aa", "x"], List.replicate 80 0⟩
    rfl (by decide)

/-- C9: calculateEncryptionID is total: for every round number it
returns a non-empty 32-byte digest and no error, the sha256 write
error branch being dead because the Go hash writer never fails. -/
theorem c9_encryption_id_total (r : Nat) :
    ∃ d, calculateEncryptionID r = .ok d ∧ d.length = 32 ∧ d ≠ [] :=
  ⟨sha256 (u64be r), rfl, sha256_length _, by
    intro h
    have := sha256_length (u64be r)
    rw [h] at this
    simp at this⟩

/-- C10: an input with any number of stanzas other than one makes
Unwrap fail with a plain error, before any stanza field is
inspected, and that error does not match age.ErrIncorrectIdentity
under errors.Is. -/
theorem c10_stanzas_length (o : UnwrapOracle) (n : Network) (ss : List Stanza)
    (h : ss.length ≠ 1) :
    Unwrap o n ss = .error (.new "check stanzas length: should be one") ∧
    errorsIs (.new "check stanzas length: should be one") .errIncorrectIdentity = false := by
  refine ⟨?_, by decide⟩
  match ss with
  | [] => rfl
  | [st] => exact absurd rfl h
  | _ :: _ :: _ => rfl

/-- C10 witness: the theorem applied to the empty stanza list. -/
theorem c10_stanzas_length_witness :
    Unwrap okOracle testNet [] = .error (.new "check stanzas length: should be one") ∧
    errorsIs (.new "check stanzas length: should be one") .errIncorrectIdentity = false :=
  c10_stanzas_length okOracle testNet [] (by decide)

end Tlock
